import Mathlib

/-!
Shallow embedding of the Minnesota prospect-research tool
(`minnesota_prospect_research[1].py`) and verification of its
specification's claims.

Network I/O (HTTP fetches, courtesy sleeps, console printing, file
persistence, chart rendering) is abstracted into an `Env` of response
functions; the pure data transformations (`get_latest`, the
financial-snapshot assembly, `calculate_capacity_rating`,
`assess_mission_alignment`, the per-company orchestration of
`research_company`, and the priority ranking of `main`) are embedded
directly from the source.
-/

namespace Prospect

/-- One reported XBRL fact value, an element of the
`units -> "USD"` array in the company-facts payload (spec section 6:
`array of val, end, form, ...`).  Each field may be missing from the
JSON object, hence `Option`.  The `end` key is a Lean keyword, so the
field is called `endDate`. -/
structure FactEntry where
  val : Option Int
  endDate : Option String
  form : Option String
deriving Repr, DecidableEq

/-- The per-concept payload: a currency-unit keyed map of fact arrays,
modelled as an association list (`us_gaap[concept]["units"]`). -/
structure ConceptFacts where
  units : List (String × List FactEntry)
deriving Repr, DecidableEq

/-- The `us-gaap` taxonomy of the company-facts payload: concept name
to per-concept facts, modelled as an association list. -/
abbrev UsGaap := List (String × ConceptFacts)

/-- The dictionary `get_latest` builds on success:
`{"value": latest.get("val"), "period_end": latest.get("end")}`
(source lines 110).  Either entry may be `None`. -/
structure ConceptVal where
  value : Option Int
  period_end : Option String
deriving Repr, DecidableEq

/-- The sort key of `get_latest`'s `max` call: `x.get("end", "")`
(source line 109). -/
def endKey (x : FactEntry) : String :=
  x.endDate.getD ""

/-- Python's `<` on strings: lexicographic comparison of the
character (code point) sequences, as a computable Boolean. -/
def strLt (a b : String) : Bool :=
  decide (a.data < b.data)

/-- Python's `max(e :: es, key=endKey)`: scans left to right and
replaces the current maximum only when the new key is strictly
greater, so the first maximal element wins. -/
def pyMaxByEnd (e : FactEntry) (es : List FactEntry) : FactEntry :=
  es.foldl (fun acc x => if strLt (endKey acc) (endKey x) then x else acc) e

/-- `get_latest` of `get_company_financials` (source lines 103-111):
for a tracked concept, take the USD-denominated series, keep the
entries whose `form` is `"10-K"`, and return the entry with the
maximum `end` date; `None` when the concept key is absent or the
filtered series is empty. -/
def get_latest (us_gaap : UsGaap) (concept : String) : Option ConceptVal :=
  match us_gaap.lookup concept with
  | none => none
  | some cf =>
    let usd_values := (cf.units.lookup "USD").getD []
    let annual := usd_values.filter (fun v => v.form == some "10-K")
    match annual with
    | [] => none
    | e :: es =>
      let latest := pyMaxByEnd e es
      some { value := latest.val, period_end := latest.endDate }

/-- The annual (form `"10-K"`) USD series for a concept — the list
`annual` computed inside `get_latest` (source line 107), `[]` when the
concept key is absent. -/
def annualSeries (us_gaap : UsGaap) (concept : String) : List FactEntry :=
  match us_gaap.lookup concept with
  | none => []
  | some cf => ((cf.units.lookup "USD").getD []).filter (fun v => v.form == some "10-K")

/-- The financial snapshot assembled by `get_company_financials`
(source lines 113-119). -/
structure Financials where
  revenue : Option ConceptVal
  net_income : Option ConceptVal
  total_assets : Option ConceptVal
  cash_and_equivalents : Option ConceptVal
  stockholders_equity : Option ConceptVal
deriving Repr, DecidableEq

/-- Python's `a or b` where `a` and `b` are either `None` or a
non-empty dict (every dict `get_latest` returns has two keys, hence is
truthy). -/
def pyOr (a b : Option ConceptVal) : Option ConceptVal :=
  match a with
  | some d => some d
  | none => b

/-- The snapshot-assembly step of `get_company_financials` (source
lines 113-119), applied to an already-fetched `us-gaap` fact set.  The
revenue field is `get_latest("Revenues") or
get_latest("RevenueFromContractWithCustomerExcludingAssessedTax")`. -/
def get_company_financials (us_gaap : UsGaap) : Financials :=
  { revenue := pyOr (get_latest us_gaap "Revenues")
      (get_latest us_gaap "RevenueFromContractWithCustomerExcludingAssessedTax"),
    net_income := get_latest us_gaap "NetIncomeLoss",
    total_assets := get_latest us_gaap "Assets",
    cash_and_equivalents := get_latest us_gaap "CashAndCashEquivalentsAtCarryingValue",
    stockholders_equity := get_latest us_gaap "StockholdersEquity" }

/-- The result dict of `calculate_capacity_rating` (source lines
211-220).  Scores are exact rationals; the Python floats here are
quotients of integers by `1e9` and stay well inside double range for
any realistic filing value, so `ℚ` is the faithful value model. -/
structure CapacityRating where
  score : ℚ
  rating : String
  color : String
  rationale : List String
deriving Repr, DecidableEq

/-- The extraction `(financials.get(k) or {}).get("value", 0) or 0`
(source lines 191-193): a missing concept, a `None` value inside a
present concept, and an explicit `0` all yield `0`. -/
def conceptValue0 (c : Option ConceptVal) : Int :=
  match c with
  | none => 0
  | some cv => cv.value.getD 0

/-- `score = (cash + net_income) / 1_000_000_000` (source line 196). -/
def capacity_score (financials : Financials) : ℚ :=
  let cash := conceptValue0 financials.cash_and_equivalents
  let net_income := conceptValue0 financials.net_income
  ((cash + net_income : Int) : ℚ) / 1000000000

/-- The rating/color ladder of `calculate_capacity_rating` (source
lines 198-209): strict `>` comparisons at 30, 15 and 5. -/
def capacity_rating_color (score : ℚ) : String × String :=
  if score > 30 then ("MAJOR ($1M+)", "#27ae60")
  else if score > 15 then ("LEADERSHIP ($250K-$1M)", "#f39c12")
  else if score > 5 then ("PRINCIPAL ($50K-$250K)", "#3498db")
  else ("STANDARD ($10K-$50K)", "#95a5a6")

/-- Round `n / d` (with `d > 0`) to the nearest integer, ties to
even — the rounding CPython's fixed-point float formatting applies to
the decimal expansion. -/
def roundHalfEvenNat (n d : ℕ) : ℕ :=
  let q := n / d
  let r := n % d
  if 2 * r < d then q
  else if 2 * r > d then q + 1
  else if q % 2 = 0 then q else q + 1

/-- Models the Python formatting `f"{v/1e9:.1f}"` of source lines
216-218: the value in billions printed with one decimal digit.  The
binary-double division and its formatting are modelled by exact
rational rounding (half to even) of `v / 10^8` tenths of billions;
negative values carry a leading minus sign. -/
def fmtBillions1 (v : Int) : String :=
  let t := roundHalfEvenNat v.natAbs 100000000
  (if v < 0 then "-" else "") ++ toString (t / 10) ++ "." ++ toString (t % 10)

/-- The rationale list of `calculate_capacity_rating` (source lines
215-219).  Note the conditions are Python truthiness tests on the
already-defaulted integers `cash`, `net_income`, `assets`: a value of
`0` takes the "unavailable" branch. -/
def capacity_rationale (financials : Financials) : List String :=
  let cash := conceptValue0 financials.cash_and_equivalents
  let net_income := conceptValue0 financials.net_income
  let assets := conceptValue0 financials.total_assets
  [if cash ≠ 0 then "Cash position: $" ++ fmtBillions1 cash ++ "B" else "Cash data unavailable",
   if net_income ≠ 0 then "Net income: $" ++ fmtBillions1 net_income ++ "B"
     else "Net income data unavailable",
   if assets ≠ 0 then "Total assets: $" ++ fmtBillions1 assets ++ "B" else "Assets data unavailable"]

/-- `calculate_capacity_rating` (source lines 189-220). -/
def calculate_capacity_rating (financials : Financials) : CapacityRating :=
  { score := capacity_score financials,
    rating := (capacity_rating_color (capacity_score financials)).1,
    color := (capacity_rating_color (capacity_score financials)).2,
    rationale := capacity_rationale financials }

/-- Numeric order of the capacity tiers, STANDARD lowest, MAJOR
highest, keyed by the exact rating strings the code produces. -/
def tierRank (rating : String) : ℕ :=
  if rating = "MAJOR ($1M+)" then 3
  else if rating = "LEADERSHIP ($250K-$1M)" then 2
  else if rating = "PRINCIPAL ($50K-$250K)" then 1
  else 0

/-- The company-information dict built by `get_company_info` (source
lines 76-86); the nested business address is irrelevant to every claim
and carried as a single opaque string. -/
structure CompanyInfo where
  cik : String
  name : String
  ticker : String
  sic : String
  sic_description : String
  state : String
  fiscal_year_end : String
  phone : String
  business_address : String
deriving Repr, DecidableEq

/-- Python's substring test `needle in hay`. -/
def pyIn (needle hay : String) : Bool :=
  decide (needle.data <:+: hay.data)

/-- Python's `str.lower()`: character-wise lowercasing (all strings
involved are ASCII industry descriptions, where CPython's `lower` and
`Char.toLower` agree). -/
def pyLower (s : String) : String :=
  ⟨s.data.map Char.toLower⟩

/-- The result dict of `assess_mission_alignment` (source lines
256-260). -/
structure Alignment where
  level : String
  score : ℕ
  factors : List String
deriving Repr, DecidableEq

/-- Healthcare terms of source line 231. -/
def healthTerms : List String := ["health", "medical", "pharmaceutical", "hospital"]

/-- Retail terms of source line 236. -/
def retailTerms : List String := ["retail", "store", "merchandise"]

/-- Manufacturing terms of source line 241. -/
def manufacturingTerms : List String := ["manufacturing", "chemical", "industrial"]

/-- Factor string appended on a healthcare match (source line 232). -/
def healthFactor : String := "Healthcare sector - STRONG alignment with pediatric health mission"

/-- Factor string appended on a retail match (source line 237). -/
def retailFactor : String := "Retail sector - Strong community presence, cause marketing potential"

/-- Factor string appended on a manufacturing match (source line 242). -/
def manufacturingFactor : String := "Manufacturing sector - Likely has established CSR programs"

/-- Factor string appended unconditionally (source line 246). -/
def minnesotaFactor : String := "Minnesota headquarters - Local community connection to CCRF"

/-- `assess_mission_alignment` (source lines 223-260): three
independent substring checks on the lowercased industry description,
then an unconditional +2 locality bonus, then the level ladder
(`>= 4` HIGH, `>= 2` MEDIUM, else STANDARD). -/
def assess_mission_alignment (company : CompanyInfo) : Alignment :=
  let sic_desc := pyLower company.sic_description
  let hc := healthTerms.any (fun t => pyIn t sic_desc)
  let rt := retailTerms.any (fun t => pyIn t sic_desc)
  let mfg := manufacturingTerms.any (fun t => pyIn t sic_desc)
  let alignment_score : ℕ :=
    (if hc then 3 else 0) + (if rt then 2 else 0) + (if mfg then 1 else 0) + 2
  let alignment_factors : List String :=
    (if hc then [healthFactor] else []) ++ (if rt then [retailFactor] else []) ++
      (if mfg then [manufacturingFactor] else []) ++ [minnesotaFactor]
  let level :=
    if alignment_score ≥ 4 then "HIGH"
    else if alignment_score ≥ 2 then "MEDIUM"
    else "STANDARD"
  { level := level, score := alignment_score, factors := alignment_factors }

/-- A `MINNESOTA_COMPANIES` entry (source lines 36-40). -/
structure CompanyConfig where
  ticker : String
  name : String
  city : String
deriving Repr, DecidableEq

/-- A foundation search hit (source lines 141-146). -/
structure FoundationCandidate where
  name : String
  ein : String
  city : String
  state : String
deriving Repr, DecidableEq

/-- One recent foundation filing (source lines 170-179). -/
structure FoundationFiling where
  year : Option Int
  revenue : Option Int
  expenses : Option Int
  assets : Option Int
  grants_paid : Option Int
deriving Repr, DecidableEq

/-- The foundation detail record (source lines 164-180). -/
structure FoundationProfile where
  name : String
  ein : String
  total_assets : Option Int
  total_revenue : Option Int
  ruling_date : Option String
  recent_filings : List FoundationFiling
deriving Repr, DecidableEq

/-- The value bound to `financials` inside `research_company`:
`get_company_financials` either returns the snapshot or, when the
facts fetch raises, the dict `{"error": str(e)}` (source lines
120-121). -/
inductive FinancialsResult where
  | ok (f : Financials)
  | fetchError (msg : String)
deriving Repr, DecidableEq

/-- The all-absent snapshot.  Looking up any tracked concept in the
error dict `{"error": msg}` yields `None`, so downstream consumers of
a failed financials fetch behave exactly as on this snapshot. -/
def emptyFinancials : Financials :=
  { revenue := none, net_income := none, total_assets := none,
    cash_and_equivalents := none, stockholders_equity := none }

/-- The snapshot `calculate_capacity_rating` effectively receives
(source line 300): on a fetch error every `.get` inside it returns
`None`. -/
def capacityInput : FinancialsResult → Financials
  | .ok f => f
  | .fetchError _ => emptyFinancials

/-- Upstream responses for one run: CIK lookup (`None` models both "no
table entry" and a request failure, source lines 50-63), company info
(`error` models the `{"error": str(e)}` dict of line 88), company
facts (`error` models the `{"error": str(e)}` dict of line 121),
foundation search and detail (both return `None` on miss or failure,
source lines 124-182). -/
structure Env where
  get_cik_from_ticker : String → Option String
  get_company_info : String → String → Except String CompanyInfo
  company_facts : String → Except String UsGaap
  search_foundation : String → Option FoundationCandidate
  get_foundation_details : String → Option FoundationProfile

/-- The successful-research dict of `research_company` (source lines
303-315); the wall-clock `researched_at` timestamp is outside the
embedded state. -/
structure OkResult where
  ticker : String
  config : CompanyConfig
  company : CompanyInfo
  financials : FinancialsResult
  foundation_search : Option FoundationCandidate
  foundation_details : Option FoundationProfile
  capacity : CapacityRating
  alignment : Alignment
deriving Repr, DecidableEq

/-- A `research_company` result: either a failure dict (kept as the
literal key-value list of the Python dict) or a full research record.
In the source both are plain dicts, distinguished downstream by the
test `"error" in result`. -/
inductive RResult where
  | err (fields : List (String × String))
  | ok (r : OkResult)
deriving Repr, DecidableEq

/-- `research_company` (source lines 267-315): resolve the CIK (abort
with `{"error": f"Could not find CIK for {ticker}"}` on failure, lines
277-279), fetch company info (abort with the error dict itself on
failure, lines 283-285), fetch financials (never aborts), search the
foundation and fetch its details when found, then score capacity and
alignment. -/
def research_company (env : Env) (company_config : CompanyConfig) : RResult :=
  let ticker := company_config.ticker
  match env.get_cik_from_ticker ticker with
  | none => .err [("error", "Could not find CIK for " ++ ticker)]
  | some cik =>
    match env.get_company_info ticker cik with
    | .error e => .err [("error", e)]
    | .ok company_info =>
      let financials : FinancialsResult :=
        match env.company_facts cik with
        | .error e => .fetchError e
        | .ok gaap => .ok (get_company_financials gaap)
      let foundation_search := env.search_foundation company_config.name
      let foundation_details :=
        match foundation_search with
        | some s => env.get_foundation_details s.ein
        | none => none
      let capacity := calculate_capacity_rating (capacityInput financials)
      let alignment := assess_mission_alignment company_info
      .ok { ticker := ticker, config := company_config, company := company_info,
            financials := financials, foundation_search := foundation_search,
            foundation_details := foundation_details, capacity := capacity,
            alignment := alignment }

/-- `research_all_companies` (source lines 318-344): one result per
configured company, in order. -/
def research_all_companies (env : Env) (companies : List CompanyConfig) : List RResult :=
  companies.map (research_company env)

/-- The success test `"error" not in r` used by `main` (line 639) and
`create_visualizations` (line 355). -/
def isOk : RResult → Bool
  | .ok _ => true
  | .err _ => false

/-- The sort key `lambda x: x["capacity"]["score"]` (source line
648). -/
def capScore : RResult → ℚ
  | .ok r => r.capacity.score
  | .err _ => 0

/-- The priority ranking of `main` (source lines 639, 648):
`sorted(valid, key=..., reverse=True)` where `valid` are the results
without an `"error"` key.  CPython's `sorted` is a stable sort, and
with `reverse=True` equal-key elements keep their original order, so
it is embedded as the stable `mergeSort` under the descending-score
comparison. -/
def priority_ranking (results : List RResult) : List RResult :=
  let valid := results.filter isOk
  valid.mergeSort (fun a b => decide (capScore b ≤ capScore a))

/-! ## Helper lemmas -/

theorem strLt_iff_lt {a b : String} : strLt a b = true ↔ a < b := by
  simp [strLt, String.lt_iff_toList_lt, String.toList]

theorem le_of_strLt_eq_false {a b : String} (h : strLt a b = false) : b ≤ a := by
  refine le_of_not_lt fun hlt => ?_
  rw [← strLt_iff_lt] at hlt
  rw [h] at hlt
  exact Bool.false_ne_true hlt

theorem foldl_max_choice (es : List FactEntry) (acc : FactEntry) :
    es.foldl (fun acc x => if strLt (endKey acc) (endKey x) then x else acc) acc = acc ∨
      es.foldl (fun acc x => if strLt (endKey acc) (endKey x) then x else acc) acc ∈ es := by
  induction es generalizing acc with
  | nil => exact .inl rfl
  | cons x xs ih =>
    rw [List.foldl_cons]
    rcases ih (if strLt (endKey acc) (endKey x) then x else acc) with h | h
    · rw [h]
      split
      · exact .inr (List.mem_cons_self x xs)
      · exact .inl rfl
    · exact .inr (List.mem_cons_of_mem x h)

theorem foldl_max_ge (es : List FactEntry) (acc : FactEntry) :
    endKey acc ≤
        endKey (es.foldl (fun acc x => if strLt (endKey acc) (endKey x) then x else acc) acc) ∧
      ∀ y ∈ es,
        endKey y ≤
          endKey (es.foldl (fun acc x => if strLt (endKey acc) (endKey x) then x else acc) acc) := by
  induction es generalizing acc with
  | nil => exact ⟨le_rfl, by simp⟩
  | cons x xs ih =>
    rw [List.foldl_cons]
    obtain ⟨h1, h2⟩ := ih (if strLt (endKey acc) (endKey x) then x else acc)
    have hacc : endKey acc ≤ endKey (if strLt (endKey acc) (endKey x) then x else acc) := by
      split_ifs with h
      · exact le_of_lt (strLt_iff_lt.mp h)
      · exact le_rfl
    have hx : endKey x ≤ endKey (if strLt (endKey acc) (endKey x) then x else acc) := by
      split_ifs with h
      · exact le_rfl
      · exact le_of_strLt_eq_false (Bool.eq_false_iff.mpr h)
    refine ⟨le_trans hacc h1, fun y hy => ?_⟩
    rcases List.mem_cons.mp hy with rfl | hy
    · exact le_trans hx h1
    · exact h2 y hy

theorem pyMaxByEnd_choice (e : FactEntry) (es : List FactEntry) :
    pyMaxByEnd e es = e ∨ pyMaxByEnd e es ∈ es :=
  foldl_max_choice es e

theorem pyMaxByEnd_ge (e : FactEntry) (es : List FactEntry) :
    endKey e ≤ endKey (pyMaxByEnd e es) ∧ ∀ y ∈ es, endKey y ≤ endKey (pyMaxByEnd e es) :=
  foldl_max_ge es e

theorem get_latest_eq (g : UsGaap) (c : String) :
    get_latest g c =
      match annualSeries g c with
      | [] => none
      | e :: es =>
        some { value := (pyMaxByEnd e es).val, period_end := (pyMaxByEnd e es).endDate } := by
  unfold get_latest annualSeries
  cases g.lookup c with
  | none => rfl
  | some cf => rfl

theorem get_latest_none_iff (g : UsGaap) (c : String) :
    get_latest g c = none ↔ annualSeries g c = [] := by
  rw [get_latest_eq]
  cases h : annualSeries g c <;> simp

theorem lookup_none_annualSeries_nil {g : UsGaap} {c : String} (h : g.lookup c = none) :
    annualSeries g c = [] := by
  unfold annualSeries
  rw [h]

/-! ## Claim C1 -/

/-- Claim C1: for every raw fact set and tracked concept, the value
`get_latest` selects is an entry of the USD-denominated, form-`"10-K"`
series whose period-end date (compared as strings) is greater than or
equal to that of every entry in the series; and the result is `none`
exactly when the concept key is absent or the filtered series is
empty — never an error. -/
theorem c1_latest_annual_selection (us_gaap : UsGaap) (concept : String) :
    (∀ cv, get_latest us_gaap concept = some cv →
      ∃ e ∈ annualSeries us_gaap concept,
        cv.value = e.val ∧ cv.period_end = e.endDate ∧
          ∀ x ∈ annualSeries us_gaap concept, endKey x ≤ endKey e) ∧
    (get_latest us_gaap concept = none ↔
      us_gaap.lookup concept = none ∨ annualSeries us_gaap concept = []) := by
  constructor
  · intro cv hcv
    rw [get_latest_eq] at hcv
    cases h : annualSeries us_gaap concept with
    | nil => rw [h] at hcv; exact absurd hcv (by simp)
    | cons e es =>
      rw [h] at hcv
      simp only [Option.some.injEq] at hcv
      refine ⟨pyMaxByEnd e es, ?_, ?_, ?_, ?_⟩
      · rcases pyMaxByEnd_choice e es with hc | hc
        · rw [hc]; exact List.mem_cons_self e es
        · exact List.mem_cons_of_mem e hc
      · rw [← hcv]
      · rw [← hcv]
      · intro x hx
        rcases List.mem_cons.mp hx with rfl | hx
        · exact (pyMaxByEnd_ge x es).1
        · exact (pyMaxByEnd_ge e es).2 x hx
  · rw [get_latest_none_iff]
    constructor
    · exact fun h => Or.inr h
    · rintro (h | h)
      · exact lookup_none_annualSeries_nil h
      · exact h

/-- Fact entries and fact sets used as concrete inputs below. -/
def entry2022 : FactEntry :=
  { val := some 109120000000, endDate := some "2023-01-28", form := some "10-K" }

def entry2024 : FactEntry :=
  { val := some 107412000000, endDate := some "2024-02-03", form := some "10-K" }

def entryQuarterly : FactEntry :=
  { val := some 25000000000, endDate := some "2025-05-03", form := some "10-Q" }

/-- A fact set with a populated primary revenue concept. -/
def gaapPrimary : UsGaap :=
  [("Revenues", { units := [("USD", [entry2022, entry2024, entryQuarterly])] })]

theorem c1_latest_annual_selection_witness :
    ∃ e ∈ annualSeries gaapPrimary "Revenues",
      (ConceptVal.mk (some 107412000000) (some "2024-02-03")).value = e.val ∧
        (ConceptVal.mk (some 107412000000) (some "2024-02-03")).period_end = e.endDate ∧
        ∀ x ∈ annualSeries gaapPrimary "Revenues", endKey x ≤ endKey e :=
  (c1_latest_annual_selection gaapPrimary "Revenues").1
    (ConceptVal.mk (some 107412000000) (some "2024-02-03")) (by rfl)

/-! ## Claim C3 -/

/-- Claim C3: the snapshot's revenue is the latest annual value of the
primary concept `"Revenues"` when that annual series is non-empty;
when the primary series is empty but the alternate
`"RevenueFromContractWithCustomerExcludingAssessedTax"` series is
non-empty it is the alternate's latest value; when both are empty the
revenue concept is absent. -/
theorem c3_revenue_fallback (us_gaap : UsGaap) :
    (annualSeries us_gaap "Revenues" ≠ [] →
      (get_company_financials us_gaap).revenue = get_latest us_gaap "Revenues" ∧
        (get_latest us_gaap "Revenues").isSome = true) ∧
    (annualSeries us_gaap "Revenues" = [] →
      annualSeries us_gaap "RevenueFromContractWithCustomerExcludingAssessedTax" ≠ [] →
      (get_company_financials us_gaap).revenue =
          get_latest us_gaap "RevenueFromContractWithCustomerExcludingAssessedTax" ∧
        (get_latest us_gaap "RevenueFromContractWithCustomerExcludingAssessedTax").isSome =
          true) ∧
    (annualSeries us_gaap "Revenues" = [] →
      annualSeries us_gaap "RevenueFromContractWithCustomerExcludingAssessedTax" = [] →
      (get_company_financials us_gaap).revenue = none) := by
  refine ⟨fun h1 => ?_, fun h1 h2 => ?_, fun h1 h2 => ?_⟩
  · have hp : get_latest us_gaap "Revenues" ≠ none := fun hn =>
      h1 ((get_latest_none_iff us_gaap "Revenues").mp hn)
    obtain ⟨cv, hcv⟩ := Option.ne_none_iff_exists'.mp hp
    constructor
    · show pyOr (get_latest us_gaap "Revenues") _ = _
      rw [hcv]
      rfl
    · rw [hcv]
      rfl
  · have hpn : get_latest us_gaap "Revenues" = none :=
      (get_latest_none_iff us_gaap "Revenues").mpr h1
    have ha : get_latest us_gaap "RevenueFromContractWithCustomerExcludingAssessedTax" ≠ none :=
      fun hn => h2 ((get_latest_none_iff us_gaap _).mp hn)
    obtain ⟨cv, hcv⟩ := Option.ne_none_iff_exists'.mp ha
    constructor
    · show pyOr (get_latest us_gaap "Revenues") _ = _
      rw [hpn, hcv]
      rfl
    · rw [hcv]
      rfl
  · have hpn : get_latest us_gaap "Revenues" = none :=
      (get_latest_none_iff us_gaap "Revenues").mpr h1
    have han : get_latest us_gaap "RevenueFromContractWithCustomerExcludingAssessedTax" = none :=
      (get_latest_none_iff us_gaap _).mpr h2
    show pyOr (get_latest us_gaap "Revenues") _ = _
    rw [hpn, han]
    rfl

/-- A fact set where the primary revenue concept is absent and the
alternate revenue-from-contracts concept is populated. -/
def gaapAlternate : UsGaap :=
  [("RevenueFromContractWithCustomerExcludingAssessedTax",
    { units := [("USD", [entry2022, entry2024])] })]

theorem c3_revenue_fallback_witness :
    (get_company_financials gaapAlternate).revenue =
        get_latest gaapAlternate "RevenueFromContractWithCustomerExcludingAssessedTax" ∧
      (get_latest gaapAlternate "RevenueFromContractWithCustomerExcludingAssessedTax").isSome =
        true :=
  (c3_revenue_fallback gaapAlternate).2.1 (by rfl) (by decide)

/-! ## Claim C4 -/

/-- Claim C4: the tier boundaries are strict — a capacity score of
exactly 30 yields the LEADERSHIP rating (not MAJOR), exactly 15 yields
PRINCIPAL (not LEADERSHIP), and exactly 5 yields STANDARD (not
PRINCIPAL). -/
theorem c4_tier_boundaries (f : Financials) :
    ((calculate_capacity_rating f).score = 30 →
      (calculate_capacity_rating f).rating = "LEADERSHIP ($250K-$1M)") ∧
    ((calculate_capacity_rating f).score = 15 →
      (calculate_capacity_rating f).rating = "PRINCIPAL ($50K-$250K)") ∧
    ((calculate_capacity_rating f).score = 5 →
      (calculate_capacity_rating f).rating = "STANDARD ($10K-$50K)") := by
  have hs : (calculate_capacity_rating f).score = capacity_score f := rfl
  have hr : (calculate_capacity_rating f).rating = (capacity_rating_color (capacity_score f)).1 :=
    rfl
  rw [hs] at *
  refine ⟨fun h => ?_, fun h => ?_, fun h => ?_⟩ <;> rw [hr, h] <;>
    norm_num [capacity_rating_color]

/-- A snapshot holding only a cash position of `cash` dollars. -/
def finOfCash (cash : Int) : Financials :=
  { revenue := none, net_income := none, total_assets := none,
    cash_and_equivalents := some { value := some cash, period_end := some "2024-02-03" },
    stockholders_equity := none }

theorem c4_tier_boundaries_witness :
    (calculate_capacity_rating (finOfCash 30000000000)).rating = "LEADERSHIP ($250K-$1M)" ∧
      (calculate_capacity_rating (finOfCash 15000000000)).rating = "PRINCIPAL ($50K-$250K)" ∧
      (calculate_capacity_rating (finOfCash 5000000000)).rating = "STANDARD ($10K-$50K)" :=
  ⟨(c4_tier_boundaries (finOfCash 30000000000)).1
      (by norm_num [calculate_capacity_rating, capacity_score, conceptValue0, finOfCash]),
    (c4_tier_boundaries (finOfCash 15000000000)).2.1
      (by norm_num [calculate_capacity_rating, capacity_score, conceptValue0, finOfCash]),
    (c4_tier_boundaries (finOfCash 5000000000)).2.2
      (by norm_num [calculate_capacity_rating, capacity_score, conceptValue0, finOfCash])⟩

/-! ## Claim C5 -/

theorem conceptValue0_eq_match (c : Option ConceptVal) :
    conceptValue0 c =
      match c with
      | none => 0
      | some cv =>
        match cv.value with
        | none => 0
        | some v => v := by
  cases c with
  | none => rfl
  | some cv => cases hv : cv.value <;> simp [conceptValue0, hv]

/-- Claim C5: the capacity score is
`(cash_and_equivalents + net_income) / 1e9`, where a missing concept
and a missing value inside a present concept both count as zero, and
the score depends on nothing else (in particular not on total
assets): any two snapshots agreeing on cash and net income have equal
scores. -/
theorem c5_capacity_score_formula (f g : Financials)
    (hcash : g.cash_and_equivalents = f.cash_and_equivalents)
    (hni : g.net_income = f.net_income) :
    (calculate_capacity_rating f).score =
      (((match f.cash_and_equivalents with
          | none => (0 : Int)
          | some cv =>
            match cv.value with
            | none => 0
            | some v => v) +
          (match f.net_income with
          | none => (0 : Int)
          | some cv =>
            match cv.value with
            | none => 0
            | some v => v) : Int) : ℚ) / 1000000000 ∧
      (calculate_capacity_rating g).score = (calculate_capacity_rating f).score := by
  constructor
  · show capacity_score f = _
    unfold capacity_score
    rw [conceptValue0_eq_match f.cash_and_equivalents, conceptValue0_eq_match f.net_income]
  · show capacity_score g = capacity_score f
    unfold capacity_score
    rw [hcash, hni]

/-- A snapshot with cash, net income and total assets populated. -/
def finFull : Financials :=
  { revenue := none,
    net_income := some { value := some 4000000000, period_end := some "2024-02-03" },
    total_assets := some { value := some 55356000000, period_end := some "2024-02-03" },
    cash_and_equivalents := some { value := some 3805000000, period_end := some "2024-02-03" },
    stockholders_equity := none }

/-- `finFull` with the total-assets concept removed. -/
def finNoAssets : Financials :=
  { finFull with total_assets := none }

theorem c5_capacity_score_formula_witness :
    (calculate_capacity_rating finFull).score =
      (((match finFull.cash_and_equivalents with
          | none => (0 : Int)
          | some cv =>
            match cv.value with
            | none => 0
            | some v => v) +
          (match finFull.net_income with
          | none => (0 : Int)
          | some cv =>
            match cv.value with
            | none => 0
            | some v => v) : Int) : ℚ) / 1000000000 ∧
      (calculate_capacity_rating finNoAssets).score = (calculate_capacity_rating finFull).score :=
  c5_capacity_score_formula finFull finNoAssets (by rfl) (by rfl)

/-! ## Claim C6 -/

theorem tierRank_color_mono {s t : ℚ} (hst : s ≤ t) :
    tierRank (capacity_rating_color s).1 ≤ tierRank (capacity_rating_color t).1 := by
  unfold capacity_rating_color
  split_ifs <;> first | decide | linarith

/-- Claim C6: the capacity scorer is monotonic in
`cash + net_income` — a snapshot whose sum is at least another's gets
a score at least as large and a tier at least as high (tiers ordered
STANDARD < PRINCIPAL < LEADERSHIP < MAJOR). -/
theorem c6_capacity_monotone (f g : Financials)
    (h : conceptValue0 g.cash_and_equivalents + conceptValue0 g.net_income ≤
        conceptValue0 f.cash_and_equivalents + conceptValue0 f.net_income) :
    (calculate_capacity_rating g).score ≤ (calculate_capacity_rating f).score ∧
      tierRank (calculate_capacity_rating g).rating ≤
        tierRank (calculate_capacity_rating f).rating := by
  have hs : capacity_score g ≤ capacity_score f := by
    show ((conceptValue0 g.cash_and_equivalents + conceptValue0 g.net_income : Int) : ℚ) /
          1000000000 ≤
        ((conceptValue0 f.cash_and_equivalents + conceptValue0 f.net_income : Int) : ℚ) /
          1000000000
    have hq : ((conceptValue0 g.cash_and_equivalents + conceptValue0 g.net_income : Int) : ℚ) ≤
        ((conceptValue0 f.cash_and_equivalents + conceptValue0 f.net_income : Int) : ℚ) := by
      exact_mod_cast h
    exact div_le_div_of_nonneg_right hq (by norm_num)
  exact ⟨hs, tierRank_color_mono hs⟩

theorem c6_capacity_monotone_witness :
    (calculate_capacity_rating (finOfCash 2000000000)).score ≤
        (calculate_capacity_rating (finOfCash 35000000000)).score ∧
      tierRank (calculate_capacity_rating (finOfCash 2000000000)).rating ≤
        tierRank (calculate_capacity_rating (finOfCash 35000000000)).rating :=
  c6_capacity_monotone (finOfCash 35000000000) (finOfCash 2000000000) (by decide)

/-! ## Claim C7 -/

/-- A company whose industry description contains a healthcare term,
a retail term, and also a manufacturing term. -/
def companyHRC : CompanyInfo :=
  { cik := "0000000001", name := "Example Corp", ticker := "EXM", sic := "5331",
    sic_description := "Retail Hospital Chemical Supplies", state := "MN",
    fiscal_year_end := "0131", phone := "", business_address := "" }

/-- Counterexample to claim C7 as stated: `companyHRC`'s description
contains both a healthcare term ("hospital") and a retail term
("retail"), yet the alignment score is 8, not 3 + 2 + 2 = 7, because
the independent manufacturing check ("chemical") also fires. -/
theorem c7_additivity_counterexample :
    healthTerms.any (fun t => pyIn t (pyLower companyHRC.sic_description)) = true ∧
      retailTerms.any (fun t => pyIn t (pyLower companyHRC.sic_description)) = true ∧
      (assess_mission_alignment companyHRC).score = 8 ∧
      (assess_mission_alignment companyHRC).score ≠ 7 :=
  ⟨rfl, rfl, rfl, by decide⟩

/-- Claim C7 (amended): for a company whose industry description
contains a healthcare term and a retail term and no manufacturing
term, the alignment score is 3 + 2 + 2 = 7, the level is HIGH, and the
factor list is exactly the healthcare factor, then the retail factor,
then the locality factor (both claim factors present, in match
order). -/
theorem c7_amended_additivity (company : CompanyInfo)
    (hh : healthTerms.any (fun t => pyIn t (pyLower company.sic_description)) = true)
    (hr : retailTerms.any (fun t => pyIn t (pyLower company.sic_description)) = true)
    (hm : manufacturingTerms.any (fun t => pyIn t (pyLower company.sic_description)) = false) :
    (assess_mission_alignment company).score = 7 ∧
      (assess_mission_alignment company).level = "HIGH" ∧
      (assess_mission_alignment company).factors =
        [healthFactor, retailFactor, minnesotaFactor] := by
  simp [assess_mission_alignment, hh, hr, hm]

/-- A company whose industry description contains a healthcare term
and a retail term and no manufacturing term. -/
def companyHR : CompanyInfo :=
  { cik := "0000000002", name := "Example Retail Health", ticker := "ERH", sic := "5331",
    sic_description := "Hospital and Retail Outlets", state := "MN",
    fiscal_year_end := "0131", phone := "", business_address := "" }

theorem c7_amended_additivity_witness :
    (assess_mission_alignment companyHR).score = 7 ∧
      (assess_mission_alignment companyHR).level = "HIGH" ∧
      (assess_mission_alignment companyHR).factors =
        [healthFactor, retailFactor, minnesotaFactor] :=
  c7_amended_additivity companyHR (by rfl) (by rfl) (by rfl)

/-! ## Claim C9 -/

/-- A snapshot whose cash concept is present with an explicit reported
value of `0`. -/
def finZeroCash : Financials :=
  { revenue := none,
    net_income := some { value := some 5000000000, period_end := some "2024-02-03" },
    total_assets := none,
    cash_and_equivalents := some { value := some 0, period_end := some "2024-02-03" },
    stockholders_equity := none }

/-- Counterexample to claim C9 as stated: in `finZeroCash` the cash
concept is present with the value `0`, yet the first rationale string
is the "unavailable" marker — the Python condition is a truthiness
test on the extracted number, not a presence test. -/
theorem c9_rationale_counterexample :
    (finZeroCash.cash_and_equivalents.map fun cv => cv.value) = some (some 0) ∧
      (calculate_capacity_rating finZeroCash).rationale[0]? = some "Cash data unavailable" :=
  ⟨rfl, rfl⟩

/-- Claim C9 (amended): each rationale string reports the extracted
value in billions to one decimal place exactly when that extracted
value is nonzero, and the "unavailable" marker exactly when the
extracted value is zero (in particular whenever the concept or its
value is absent); total assets is reported in the third rationale slot
but never influences the score. -/
theorem c9_rationale_amended (f : Financials) :
    (conceptValue0 f.cash_and_equivalents ≠ 0 →
      (calculate_capacity_rating f).rationale[0]? =
        some ("Cash position: $" ++ fmtBillions1 (conceptValue0 f.cash_and_equivalents) ++ "B")) ∧
    (conceptValue0 f.cash_and_equivalents = 0 →
      (calculate_capacity_rating f).rationale[0]? = some "Cash data unavailable") ∧
    (conceptValue0 f.net_income ≠ 0 →
      (calculate_capacity_rating f).rationale[1]? =
        some ("Net income: $" ++ fmtBillions1 (conceptValue0 f.net_income) ++ "B")) ∧
    (conceptValue0 f.net_income = 0 →
      (calculate_capacity_rating f).rationale[1]? = some "Net income data unavailable") ∧
    (conceptValue0 f.total_assets ≠ 0 →
      (calculate_capacity_rating f).rationale[2]? =
        some ("Total assets: $" ++ fmtBillions1 (conceptValue0 f.total_assets) ++ "B")) ∧
    (conceptValue0 f.total_assets = 0 →
      (calculate_capacity_rating f).rationale[2]? = some "Assets data unavailable") ∧
    ∀ a, (calculate_capacity_rating { f with total_assets := a }).score =
      (calculate_capacity_rating f).score := by
  refine ⟨fun h => ?_, fun h => ?_, fun h => ?_, fun h => ?_, fun h => ?_, fun h => ?_,
    fun a => rfl⟩ <;>
    simp [calculate_capacity_rating, capacity_rationale, h]

theorem c9_rationale_amended_witness :
    (calculate_capacity_rating finFull).rationale[0]? =
        some ("Cash position: $" ++ fmtBillions1 (conceptValue0 finFull.cash_and_equivalents) ++
          "B") ∧
      (calculate_capacity_rating finFull).rationale[2]? =
        some ("Total assets: $" ++ fmtBillions1 (conceptValue0 finFull.total_assets) ++ "B") :=
  ⟨(c9_rationale_amended finFull).1 (by decide),
    (c9_rationale_amended finFull).2.2.2.2.1 (by decide)⟩

/-! ## Claim C10 -/

/-- Claim C10: because the +2 locality bonus and its factor string are
added unconditionally, every alignment assessment has score at least
2, a level that is HIGH or MEDIUM (never STANDARD), and the locality
factor string among its factors. -/
theorem c10_alignment_floor (company : CompanyInfo) :
    2 ≤ (assess_mission_alignment company).score ∧
      ((assess_mission_alignment company).level = "HIGH" ∨
        (assess_mission_alignment company).level = "MEDIUM") ∧
      (assess_mission_alignment company).level ≠ "STANDARD" ∧
      minnesotaFactor ∈ (assess_mission_alignment company).factors := by
  have hsc : 2 ≤ (assess_mission_alignment company).score := Nat.le_add_left 2 _
  have hlv : (assess_mission_alignment company).level =
      if (assess_mission_alignment company).score ≥ 4 then "HIGH"
      else if (assess_mission_alignment company).score ≥ 2 then "MEDIUM" else "STANDARD" := rfl
  refine ⟨hsc, ?_, ?_, ?_⟩
  · rw [hlv]
    split_ifs with h1
    · exact Or.inl rfl
    · exact Or.inr rfl
  · rw [hlv]
    split_ifs with h1 <;> decide
  · exact List.mem_append_right _ (List.mem_singleton.mpr rfl)

/-! ## Claim C2 -/

/-- An environment in which every CIK resolution fails. -/
def envFail : Env :=
  { get_cik_from_ticker := fun _ => none,
    get_company_info := fun _ _ => .error "request failed",
    company_facts := fun _ => .error "request failed",
    search_foundation := fun _ => none,
    get_foundation_details := fun _ => none }

/-- The Target Corporation entry of `MINNESOTA_COMPANIES`. -/
def cfgTGT : CompanyConfig :=
  { ticker := "TGT", name := "Target Corporation", city := "Minneapolis" }

/-- Counterexample to claim C2 as stated: when resolution of `"TGT"`
fails, the failure record is the single-field dict
`{"error": "Could not find CIK for TGT"}` — it has no field keyed
`"symbol"` (or `"ticker"`), and no field whose value is the bare
symbol; the symbol only appears embedded in the message text. -/
theorem c2_failure_record_counterexample :
    research_company envFail cfgTGT = .err [("error", "Could not find CIK for TGT")] ∧
      ∀ kv ∈ [(("error" : String), ("Could not find CIK for TGT" : String))],
        kv.1 ≠ "symbol" ∧ kv.1 ≠ "ticker" ∧ kv.2 ≠ "TGT" :=
  ⟨rfl, by decide⟩

/-- Claim C2 (amended): a company whose identifier resolution fails
produces a minimal failure record whose only field is an error message
(which embeds the symbol in its text), and such a record never appears
in the priority ranking — only results without an error key are sorted
and ranked. -/
theorem c2_resolution_failure (env : Env) (cfg : CompanyConfig)
    (h : env.get_cik_from_ticker cfg.ticker = none) :
    research_company env cfg = .err [("error", "Could not find CIK for " ++ cfg.ticker)] ∧
      ∀ results : List RResult, research_company env cfg ∉ priority_ranking results := by
  have h1 : research_company env cfg =
      .err [("error", "Could not find CIK for " ++ cfg.ticker)] := by
    simp [research_company, h]
  refine ⟨h1, fun results hmem => ?_⟩
  have h2 : research_company env cfg ∈ results.filter isOk :=
    (List.mergeSort_perm (results.filter isOk) _).mem_iff.mp hmem
  have h3 := List.of_mem_filter h2
  rw [h1] at h3
  simp [isOk] at h3

theorem c2_resolution_failure_witness :
    research_company envFail cfgTGT = .err [("error", "Could not find CIK for TGT")] ∧
      research_company envFail cfgTGT ∉
        priority_ranking [research_company envFail cfgTGT] :=
  ⟨(c2_resolution_failure envFail cfgTGT (by rfl)).1.trans rfl,
    (c2_resolution_failure envFail cfgTGT (by rfl)).2 [research_company envFail cfgTGT]⟩

/-! ## Claim C8 -/

/-- Claim C8: the priority ranking is a permutation of exactly the
successful (error-free) results, it is sorted by capacity score in
descending order, and it is stable — two successful results with equal
capacity scores appear in the ranking in their original encounter
order. -/
theorem c8_priority_ranking_sorted (results : List RResult) :
    (priority_ranking results).Perm (results.filter isOk) ∧
      (priority_ranking results).Pairwise (fun a b => capScore b ≤ capScore a) ∧
      ∀ a b, isOk a = true → isOk b = true → capScore a = capScore b →
        List.Sublist [a, b] results → List.Sublist [a, b] (priority_ranking results) := by
  have htrans : ∀ x y z : RResult,
      (fun a b => decide (capScore b ≤ capScore a)) x y = true →
      (fun a b => decide (capScore b ≤ capScore a)) y z = true →
      (fun a b => decide (capScore b ≤ capScore a)) x z = true := by
    intro x y z hxy hyz
    simp only [decide_eq_true_eq] at *
    exact le_trans hyz hxy
  have htot : ∀ x y : RResult,
      ((fun a b => decide (capScore b ≤ capScore a)) x y ||
        (fun a b => decide (capScore b ≤ capScore a)) y x) = true := by
    intro x y
    simp only [Bool.or_eq_true, decide_eq_true_eq]
    exact le_total _ _
  refine ⟨List.mergeSort_perm (results.filter isOk) _, ?_, ?_⟩
  · exact (List.sorted_mergeSort htrans htot (results.filter isOk)).imp
      fun hab => of_decide_eq_true hab
  · intro a b ha hb hs hsub
    have hle : (fun a b => decide (capScore b ≤ capScore a)) a b = true := by
      simp only [decide_eq_true_eq]
      exact le_of_eq hs.symm
    have hpair :
        List.Pairwise (fun x y => (fun a b => decide (capScore b ≤ capScore a)) x y = true)
          [a, b] := by
      constructor
      · intro y hy
        rw [List.mem_singleton.mp hy]
        exact hle
      · exact List.pairwise_singleton _ _
    have hfsub : List.Sublist [a, b] (results.filter isOk) := by
      have hf := List.Sublist.filter isOk hsub
      rwa [show List.filter isOk [a, b] = [a, b] from by simp [List.filter, ha, hb]] at hf
    exact List.sublist_mergeSort htrans htot hpair hfsub

/-- A blank company-information record. -/
def infoBlank : CompanyInfo :=
  { cik := "", name := "", ticker := "", sic := "", sic_description := "", state := "",
    fiscal_year_end := "", phone := "", business_address := "" }

/-- A fixed capacity rating with score 3 (in billions). -/
def capacity3 : CapacityRating :=
  { score := 3, rating := "STANDARD ($10K-$50K)", color := "#95a5a6",
    rationale := ["Cash data unavailable", "Net income data unavailable",
      "Assets data unavailable"] }

/-- A fixed alignment assessment. -/
def alignBlank : Alignment :=
  { level := "MEDIUM", score := 2, factors := [minnesotaFactor] }

/-- First successful result with capacity score 3. -/
def okAAA : RResult :=
  .ok { ticker := "AAA", config := { ticker := "AAA", name := "A Corp", city := "Minneapolis" },
        company := infoBlank, financials := .ok emptyFinancials, foundation_search := none,
        foundation_details := none, capacity := capacity3, alignment := alignBlank }

/-- Second successful result, same capacity score 3. -/
def okBBB : RResult :=
  .ok { ticker := "BBB", config := { ticker := "BBB", name := "B Corp", city := "St. Paul" },
        company := infoBlank, financials := .ok emptyFinancials, foundation_search := none,
        foundation_details := none, capacity := capacity3, alignment := alignBlank }

/-- A failed result sandwiched between the two successful ones. -/
def errCCC : RResult :=
  .err [("error", "Could not find CIK for CCC")]

theorem c8_priority_ranking_sorted_witness :
    List.Sublist [okAAA, okBBB] (priority_ranking [okAAA, errCCC, okBBB]) :=
  (c8_priority_ranking_sorted [okAAA, errCCC, okBBB]).2.2 okAAA okBBB rfl rfl rfl
    ((List.Sublist.cons errCCC (List.Sublist.cons₂ okBBB List.Sublist.slnil)).cons₂ okAAA)

end Prospect
